import Mathlib

set_option maxRecDepth 100000

/-!
Verification of the Mock-Control-Plane repository (Go) against its
natural-language specification.

The development shallowly embeds the three layers the claims are about:

* the Resilient Executor `DoWithRetry` from `pkg/client` (file
  `src/unnamed/part_000`): modelled as a pure recursion over an oracle
  giving the outcome of each HTTP attempt.  Context cancellation is an
  external event that only aborts the loop early; the claims quantify the
  uncancelled execution path, which is what is embedded.  Go `int64`
  duration arithmetic is modelled exactly, with two's-complement wrap.
* the Sony provider `pkg/provider/sony_provider.go`: the response
  classification of `Create`, `Read`, `Update`, `Delete`.  The HTTP
  exchange and JSON unmarshalling are external effects; their results are
  inputs (`ExecResult` carries the status code, the parse result and the
  raw body).
* the controller handlers of `cmd/vendor-api/main.go`: pure functions of
  the decoded request, the current store contents, the generated id, the
  clock reading and the vendor-call outcome.  The store (a Go map guarded
  by an `RWMutex`) is modelled as an association list with map-style
  put/delete.  Wall-clock readings (`time.Now()`) are explicit inputs.
-/

namespace MCP

/-! ### Resilient Executor (pkg/client, src/unnamed/part_000) -/

/-- Outcome of one `client.Do(reqClone)` call inside `DoWithRetry`:
either a transport-level error (`lastErr != nil`) or a received HTTP
response with its status code. -/
inductive AttemptOutcome where
  | transportError (msg : String)
  | response (statusCode : Nat)
deriving DecidableEq

/-- Negation of the early-return condition of `DoWithRetry`
(`lastErr == nil && resp.StatusCode < 500`, line 36): an attempt outcome
on which the executor keeps retrying. -/
def retriesOn : AttemptOutcome → Bool
  | .transportError _ => true
  | .response statusCode => if statusCode < 500 then false else true

/-- Two's-complement wrap of an integer to Go's `int64`
(`time.Duration` is an `int64` count of nanoseconds). -/
def wrap64 (x : Int) : Int := (x + 2 ^ 63) % 2 ^ 64 - 2 ^ 63

/-- Backoff delay in nanoseconds computed by `DoWithRetry` lines 45-52:
`backoffDelay := time.Duration(1<<uint(attempt)) * 100 * time.Millisecond`
capped at `5 * time.Second`.  The shift and both multiplications are Go
`int64` operations and wrap on overflow; `wrap64 (2 ^ attempt)` equals
Go's `int64(1) << attempt` for every attempt (0 once the shift count
reaches 64). -/
def backoffDelayNs (attempt : Nat) : Int :=
  let shifted := wrap64 (2 ^ attempt)
  let backoffDelay := wrap64 (wrap64 (shifted * 100) * 1000000)
  if backoffDelay > 5 * 1000000000 then 5 * 1000000000 else backoffDelay

/-- Result of `DoWithRetry`: a returned response with nil error
(status < 500), a nil response with an error after exhausting the budget
on a transport failure, or the last received server-fault response
returned together with an error (lines 74-81). -/
inductive RetryOutcome where
  | success (statusCode : Nat)
  | transportFailure (msg : String)
  | serverFault (statusCode : Nat)
deriving DecidableEq

/-- Observable trace of one `DoWithRetry` call: how many HTTP attempts
were issued, the backoff delays (ns) waited between attempts, in order,
and the final result. -/
structure RetryTrace where
  attempts : Nat
  delays : List Int
  result : RetryOutcome
deriving DecidableEq

/-- The retry loop of `DoWithRetry` (lines 21-71), starting at a given
attempt index with a given number of retries remaining.  `oracle n` is
the outcome of the n-th (0-indexed) HTTP attempt. -/
def runRetries (oracle : Nat → AttemptOutcome) (attempt remaining : Nat) : RetryTrace :=
  match oracle attempt with
  | .response statusCode =>
    if statusCode < 500 then
      ⟨1, [], .success statusCode⟩
    else
      match remaining with
      | 0 => ⟨1, [], .serverFault statusCode⟩
      | r + 1 =>
        let t := runRetries oracle (attempt + 1) r
        ⟨t.attempts + 1, backoffDelayNs attempt :: t.delays, t.result⟩
  | .transportError msg =>
    match remaining with
    | 0 => ⟨1, [], .transportFailure msg⟩
    | r + 1 =>
      let t := runRetries oracle (attempt + 1) r
      ⟨t.attempts + 1, backoffDelayNs attempt :: t.delays, t.result⟩

/-- `client.DoWithRetry(ctx, req, maxRetries)`: run the loop from
attempt 0 with `maxRetries` retries after the first attempt. -/
def DoWithRetry (oracle : Nat → AttemptOutcome) (maxRetries : Nat) : RetryTrace :=
  runRetries oracle 0 maxRetries

/-! ### Data model (pkg/models) -/

/-- Spec portion of `models.ForgeResource` used by the control flow:
`VendorType` selects the provider.  The open-ended `Config` payload and
the typed streaming fields only feed the vendor-specific request
translation (`buildSonyRequest`), which no claim is about. -/
structure ResourceSpec where
  vendorType : String
deriving DecidableEq

/-- Observed-state projection `models.ResourceStatus`.  The wall-clock
fields (`LastHealthCheck`, `LastSuccessfulOperation`) and streaming
metrics are set from external inputs and are not claim-relevant. -/
structure ResourceStatus where
  phase : String
  message : String
  vendorId : String
  healthStatus : String
  errorCount : Nat
deriving DecidableEq

/-- The caller-visible record `models.ForgeResource`. `nspace` models the
Go field `Namespace`; timestamps are Unix nanoseconds. -/
structure ForgeResource where
  id : String
  name : String
  type : String
  nspace : String
  spec : ResourceSpec
  status : ResourceStatus
  createdAt : Int
  updatedAt : Int
deriving DecidableEq

/-- Fields of `models.SonyDeviceResponse` read by `buildResourceStatus`
(`StreamStatus` metrics are dropped: no claim mentions them). -/
structure SonyDeviceResponse where
  deviceId : String
  status : String
  message : String
deriving DecidableEq

/-! ### Sony provider (pkg/provider/sony_provider.go) -/

/-- Combined outcome of `client.DoWithRetry` plus `io.ReadAll` plus
`json.Unmarshal` as seen by a provider operation: either the executor
returned an error, or a response was returned carrying a status code,
the parse result of its body (`none` when `json.Unmarshal` fails) and
the raw body text used in error messages. -/
inductive ExecResult where
  | failure (msg : String)
  | response (statusCode : Nat) (parsed : Option SonyDeviceResponse) (raw : String)
deriving DecidableEq

namespace SonyProvider

/-- Status-phase derivation `buildResourceStatus` (lines 315-358): a pure
table from Sony's status vocabulary to Forge phases.  The `error` case
increments `ErrorCount` from its zero value. -/
def buildResourceStatus (response : SonyDeviceResponse) : ResourceStatus :=
  if response.status == "active" then
    ⟨"Running", response.message, response.deviceId, "healthy", 0⟩
  else if response.status == "inactive" then
    ⟨"Pending", response.message, response.deviceId, "unknown", 0⟩
  else if response.status == "provisioning" then
    ⟨"Provisioning", response.message, response.deviceId, "unknown", 0⟩
  else if response.status == "error" then
    ⟨"Failed", response.message, response.deviceId, "unhealthy", 1⟩
  else if response.status == "maintenance" then
    ⟨"Updating", response.message, response.deviceId, "degraded", 0⟩
  else
    ⟨"Unknown", response.message, response.deviceId, "unknown", 0⟩

/-- Response classification of `SonyProvider.Create` (lines 165-212):
executor failure is propagated; any status other than 201/200 is an
error; otherwise the parsed body is normalized.  The request translation
and marshalling that precede the call cannot fail on the inputs the
controller produces and are outside the embedding. -/
def Create (exec : ExecResult) : Except String ResourceStatus :=
  match exec with
  | .failure msg => .error ("failed to execute Sony API request: " ++ msg)
  | .response statusCode parsed raw =>
    if statusCode != 201 && statusCode != 200 then
      .error ("Sony API returned status " ++ toString statusCode ++ ": " ++ raw)
    else
      match parsed with
      | none => .error "failed to parse Sony API response"
      | some r => .ok (buildResourceStatus r)

/-- Response classification of `SonyProvider.Read` (lines 405-441): a 404
resolves successfully to a `Failed` status naming the vendor id; any
other non-200 status is an error; a 200 body is normalized. -/
def Read (vendorID : String) (exec : ExecResult) : Except String ResourceStatus :=
  match exec with
  | .failure msg => .error ("failed to execute Sony API request: " ++ msg)
  | .response statusCode parsed raw =>
    if statusCode == 404 then
      .ok ⟨"Failed", "Device not found in Sony system", vendorID, "unhealthy", 0⟩
    else if statusCode != 200 then
      .error ("Sony API returned status " ++ toString statusCode ++ ": " ++ raw)
    else
      match parsed with
      | none => .error "failed to parse Sony API response"
      | some r => .ok (buildResourceStatus r)

/-- `SonyProvider.Update` (lines 466-528): the vendor-id precondition is
checked before anything else; only then is the vendor called, whose
outcome is `exec`. -/
def Update (resource : ForgeResource) (exec : ExecResult) : Except String ResourceStatus :=
  if resource.status.vendorId == "" then
    .error "cannot update resource without vendor ID"
  else
    match exec with
    | .failure msg => .error ("failed to execute Sony API request: " ++ msg)
    | .response statusCode parsed raw =>
      if statusCode != 200 then
        .error ("Sony API returned status " ++ toString statusCode ++ ": " ++ raw)
      else
        match parsed with
        | none => .error "failed to parse Sony API response"
        | some r => .ok (buildResourceStatus r)

/-- Response classification of `SonyProvider.Delete` (lines 567-586):
204, 200 and 404 are all success; anything else is an error carrying the
raw body. -/
def Delete (exec : ExecResult) : Except String Unit :=
  match exec with
  | .failure msg => .error ("failed to execute Sony API request: " ++ msg)
  | .response statusCode _ raw =>
    if statusCode == 204 || statusCode == 200 || statusCode == 404 then
      .ok ()
    else
      .error ("Sony API returned status " ++ toString statusCode ++ ": " ++ raw)

end SonyProvider

/-! ### Controller (cmd/vendor-api/main.go)

Each handler is a pure function of the decoded request, the current
`ResourceDB` contents, the generated id / clock reading, and the outcome
of the provider call it performs.  The `RWMutex`-guarded Go map is
modelled as an association list with map-style put and delete; the
handlers are the only writers and each performs at most one store
mutation, so a handler execution under the lock discipline observes
exactly this sequential semantics. -/

/-- In-memory `ResourceDB`, keyed by resource id. -/
def Store := List (String × ForgeResource)
deriving DecidableEq

/-- Map assignment `c.ResourceDB[k] = v`. -/
def storePut (db : Store) (k : String) (v : ForgeResource) : Store :=
  (k, v) :: List.filter (fun p => p.1 != k) db

/-- Map removal `delete(c.ResourceDB, k)`. -/
def storeDel (db : Store) (k : String) : Store :=
  List.filter (fun p => p.1 != k) db

/-- Map lookup `c.ResourceDB[k]`. -/
def storeGet (db : Store) (k : String) : Option ForgeResource :=
  List.lookup k db

/-- `generateResourceID` (lines 564-566): the id is a pure function of
the `time.Now().UnixNano()` reading — the process keeps no counter and
adds no entropy. -/
def generateResourceID (nowUnixNano : Int) : String :=
  "res-" ++ toString nowUnixNano

/-- Result of `HandleCreateResource`: HTTP status code, the encoded
response record (`none` for the error-JSON bodies), and the store after
the request. -/
structure CreateResult where
  status : Nat
  body : Option ForgeResource
  db : Store
deriving DecidableEq

/-- Result of `HandleGetResource`. -/
structure GetResult where
  status : Nat
  body : Option ForgeResource
  db : Store
deriving DecidableEq

/-- Result of `HandleDeleteResource` (a 204 has no body; error bodies are
JSON maps, not records). -/
structure DeleteResult where
  status : Nat
  db : Store
deriving DecidableEq

/-- `HandleCreateResource` (lines 324-421).  `decoded` is the result of
the JSON decode (`none` = malformed body), `providers` the keys of the
startup-built provider map, `newID` the generated id, `now` the clock
reading used for the timestamps, and `vendorResult` the outcome of
`selectedProvider.Create`. -/
def HandleCreateResource (providers : List String) (db : Store)
    (decoded : Option ForgeResource) (newID : String) (now : Int)
    (vendorResult : Except String ResourceStatus) : CreateResult :=
  match decoded with
  | none => ⟨400, none, db⟩
  | some resource =>
    if resource.name == "" then ⟨400, none, db⟩
    else if resource.type == "" then ⟨400, none, db⟩
    else if resource.spec.vendorType == "" then ⟨400, none, db⟩
    else
      -- Steps 3-5: generated id, timestamps, initial Pending status.
      let r0 : ForgeResource :=
        { resource with
          id := newID, createdAt := now, updatedAt := now,
          status := { resource.status with
                      phase := "Pending", message := "Resource creation initiated" } }
      -- Step 6: provider selection.
      if providers.contains r0.spec.vendorType then
        -- Step 8: vendor call; a failure is recorded, not returned.
        let r1 : ForgeResource :=
          match vendorResult with
          | .error e =>
            { r0 with status := { r0.status with
                                  phase := "Failed",
                                  message := "Vendor API error: " ++ e } }
          | .ok st => { r0 with status := st }
        ⟨201, some r1, storePut db newID r1⟩
      else ⟨400, none, db⟩

/-- `HandleGetResource` (lines 424-489).  `readResult` is the outcome of
`selectedProvider.Read`, consulted only when the stored record has a
vendor id; a read failure falls back to the cached record and the store
is updated only on success. -/
def HandleGetResource (providers : List String) (db : Store) (resourceID : String)
    (readResult : Except String ResourceStatus) (now : Int) : GetResult :=
  if resourceID == "" then ⟨400, none, db⟩
  else
    match storeGet db resourceID with
    | none => ⟨404, none, db⟩
    | some resource =>
      if providers.contains resource.spec.vendorType then
        if resource.status.vendorId != "" then
          match readResult with
          | .error _ => ⟨200, some resource, db⟩
          | .ok st =>
            let r1 : ForgeResource := { resource with status := st, updatedAt := now }
            ⟨200, some r1, storePut db resourceID r1⟩
        else ⟨200, some resource, db⟩
      else ⟨500, none, db⟩

/-- `HandleDeleteResource` (lines 492-553).  `vendorResult` is the
outcome of `selectedProvider.Delete`, consulted only when the stored
record has a vendor id; local removal happens only on vendor success. -/
def HandleDeleteResource (providers : List String) (db : Store) (resourceID : String)
    (vendorResult : Except String Unit) : DeleteResult :=
  if resourceID == "" then ⟨400, db⟩
  else
    match storeGet db resourceID with
    | none => ⟨404, db⟩
    | some resource =>
      if providers.contains resource.spec.vendorType then
        if resource.status.vendorId != "" then
          match vendorResult with
          | .error _ => ⟨500, db⟩
          | .ok _ => ⟨204, storeDel db resourceID⟩
        else ⟨204, storeDel db resourceID⟩
      else ⟨500, db⟩

/-! ### Executor lemmas -/

theorem runRetries_attempts_pos (oracle : Nat → AttemptOutcome) (a r : Nat) :
    1 ≤ (runRetries oracle a r).attempts := by
  unfold runRetries
  cases oracle a with
  | response statusCode =>
    by_cases h : statusCode < 500 <;> cases r <;> simp [h]
  | transportError msg => cases r <;> simp

theorem runRetries_attempts_le (oracle : Nat → AttemptOutcome) (r : Nat) :
    ∀ a : Nat, (runRetries oracle a r).attempts ≤ r + 1 := by
  induction r with
  | zero =>
    intro a
    unfold runRetries
    cases oracle a with
    | response statusCode => by_cases h : statusCode < 500 <;> simp [h]
    | transportError msg => simp
  | succ n ih =>
    intro a
    unfold runRetries
    cases oracle a with
    | response statusCode =>
      by_cases h : statusCode < 500
      · simp [h]
      · have := ih (a + 1)
        simp [h]
        omega
    | transportError msg =>
      have := ih (a + 1)
      simp
      omega

theorem runRetries_delays_get (oracle : Nat → AttemptOutcome) (r : Nat) :
    ∀ a n : Nat, n < (runRetries oracle a r).delays.length →
      (runRetries oracle a r).delays[n]? = some (backoffDelayNs (a + n)) := by
  induction r with
  | zero =>
    intro a n hn
    exfalso
    revert hn
    unfold runRetries
    cases oracle a with
    | response statusCode => by_cases h : statusCode < 500 <;> simp [h]
    | transportError msg => simp
  | succ k ih =>
    intro a n hn
    revert hn
    unfold runRetries
    cases oracle a with
    | response statusCode =>
      by_cases h : statusCode < 500
      · simp [h]
      · simp only [h, if_false]
        cases n with
        | zero => intro _; simp
        | succ m =>
          intro hn
          simp only [List.length_cons] at hn
          have hm : m < (runRetries oracle (a + 1) k).delays.length := by omega
          have := ih (a + 1) m hm
          simpa [Nat.add_assoc, Nat.add_comm 1 m] using this
    | transportError msg =>
      cases n with
      | zero => intro _; simp
      | succ m =>
        intro hn
        simp only [List.length_cons] at hn
        have hm : m < (runRetries oracle (a + 1) k).delays.length := by omega
        have := ih (a + 1) m hm
        simpa [Nat.add_assoc, Nat.add_comm 1 m] using this

theorem runRetries_delays_length (oracle : Nat → AttemptOutcome) (r : Nat) :
    ∀ a : Nat, (runRetries oracle a r).delays.length = (runRetries oracle a r).attempts - 1 := by
  induction r with
  | zero =>
    intro a
    unfold runRetries
    cases oracle a with
    | response statusCode => by_cases h : statusCode < 500 <;> simp [h]
    | transportError msg => simp
  | succ k ih =>
    intro a
    unfold runRetries
    cases oracle a with
    | response statusCode =>
      by_cases h : statusCode < 500 <;> simp [h]
      rw [ih (a + 1)]
      have := runRetries_attempts_pos oracle (a + 1) k
      omega
    | transportError msg =>
      simp
      rw [ih (a + 1)]
      have := runRetries_attempts_pos oracle (a + 1) k
      omega

/-- If every attempt before `n` is one the executor retries on and
attempt `n` yields a received response with a non-server-fault status,
the loop stops at attempt `n` and returns that response with nil
error. -/
theorem runRetries_first_ok (oracle : Nat → AttemptOutcome) :
    ∀ (n a r statusCode : Nat), n ≤ r →
      (∀ m, m < n → retriesOn (oracle (a + m)) = true) →
      oracle (a + n) = .response statusCode → statusCode < 500 →
      (runRetries oracle a r).result = .success statusCode ∧
      (runRetries oracle a r).attempts = n + 1 := by
  intro n
  induction n with
  | zero =>
    intro a r statusCode _ _ hc hlt
    rw [Nat.add_zero] at hc
    unfold runRetries
    rw [hc]
    simp [hlt]
  | succ k ih =>
    intro a r statusCode hnr hpre hc hlt
    have h0 : retriesOn (oracle a) = true := by
      have := hpre 0 (Nat.succ_pos k)
      rwa [Nat.add_zero] at this
    obtain ⟨r', rfl⟩ : ∃ r', r = r' + 1 := ⟨r - 1, by omega⟩
    have hpre' : ∀ m, m < k → retriesOn (oracle (a + 1 + m)) = true := by
      intro m hm
      have := hpre (m + 1) (by omega)
      rwa [show a + (m + 1) = a + 1 + m by omega] at this
    have hc' : oracle (a + 1 + k) = .response statusCode := by
      rwa [show a + (k + 1) = a + 1 + k by omega] at hc
    have hrec := ih (a + 1) r' statusCode (by omega) hpre' hc' hlt
    unfold runRetries
    cases hoa : oracle a with
    | response sc =>
      rw [hoa] at h0
      unfold retriesOn at h0
      by_cases hsc : sc < 500
      · simp [hsc] at h0
      · simp only [hsc, if_false]
        simp [hrec.1, hrec.2]
    | transportError msg =>
      simp [hrec.1, hrec.2]

/-- For attempts that stay inside the `int64` range (`n ≤ 36`,
as `100ms * 2^37` in nanoseconds already exceeds `2^63 - 1`), the
computed backoff equals the spec formula `min(5s, 100ms * 2^n)`. -/
theorem backoffDelayNs_eq_min (n : Nat) (h : n ≤ 36) :
    backoffDelayNs n = min (5 * 1000000000) ((100000000 : Int) * 2 ^ n) := by
  have key : ∀ m, m < 37 →
      backoffDelayNs m = min (5 * 1000000000) ((100000000 : Int) * 2 ^ m) := by decide
  exact key n (by omega)

/-- Once the shift count reaches 64, Go's `int64(1) << attempt` is 0, so
the whole backoff computation collapses to a zero delay. -/
theorem backoffDelayNs_ge64 (n : Nat) (h : 64 ≤ n) : backoffDelayNs n = 0 := by
  have hw : wrap64 ((2 : Int) ^ n) = 0 := by
    unfold wrap64
    rw [show (2 : Int) ^ n + 2 ^ 63 = 2 ^ 63 + 2 ^ (n - 64) * 2 ^ 64 by
      rw [← pow_add]
      have hadd : n - 64 + 64 = n := by omega
      rw [hadd]
      ring]
    rw [Int.add_mul_emod_self]
    norm_num
  simp only [backoffDelayNs, hw]
  norm_num [wrap64]

/-- Exact characterization of when the computed backoff matches the spec
formula: for `n ≤ 36` nothing overflows; among the overflowing attempts
`37 ≤ n ≤ 63` the wrapped product still exceeds the 5s cap (and is hence
capped to the correct value) precisely for `n ∈ {38, 44, 46, 51-54}`;
for every other `n ≥ 37` the wrapped value is negative or below the cap
(0 for `n ≥ 64`), escapes the `> 5s` check, and differs from the
formula. -/
theorem backoffDelayNs_eq_min_iff (n : Nat) :
    backoffDelayNs n = min (5 * 1000000000) ((100000000 : Int) * 2 ^ n) ↔
      (n ≤ 36 ∨ n ∈ ([38, 44, 46, 51, 52, 53, 54] : List Nat)) := by
  constructor
  · intro heq
    by_cases h36 : n ≤ 36
    · exact Or.inl h36
    · by_cases h64 : n < 64
      · right
        have key : ∀ m, m < 64 → 37 ≤ m →
            backoffDelayNs m = min (5 * 1000000000) ((100000000 : Int) * 2 ^ m) →
            m ∈ ([38, 44, 46, 51, 52, 53, 54] : List Nat) := by decide
        exact key n h64 (by omega) heq
      · exfalso
        have hz := backoffDelayNs_ge64 n (by omega)
        have hmin : min (5 * 1000000000) ((100000000 : Int) * 2 ^ n) = 5 * 1000000000 := by
          apply min_eq_left
          have hpow : (2 : Int) ^ 6 ≤ 2 ^ n := pow_le_pow_right₀ (by norm_num) (by omega)
          nlinarith
        rw [hz, hmin] at heq
        norm_num at heq
  · intro hgood
    rcases hgood with h36 | hmem
    · exact backoffDelayNs_eq_min n h36
    · have key : ∀ m ∈ ([38, 44, 46, 51, 52, 53, 54] : List Nat),
          backoffDelayNs m = min (5 * 1000000000) ((100000000 : Int) * 2 ^ m) := by decide
      exact key n hmem

/-! ### Store lemmas -/

theorem storeGet_storePut (db : Store) (k : String) (v : ForgeResource) :
    storeGet (storePut db k v) k = some v := by
  simp [storeGet, storePut, List.lookup]

/-! ### Claim C1 -/

/-- C1: for every `DoWithRetry` call with maximum retry count
`maxRetries`, at most `maxRetries + 1` HTTP attempts are issued, and the
executor returns immediately — with that response and nil error — after
the first attempt yielding a received response whose status is below
500, consuming no further retries. -/
theorem c1_executor_attempt_bound (oracle : Nat → AttemptOutcome) (maxRetries : Nat) :
    (DoWithRetry oracle maxRetries).attempts ≤ maxRetries + 1 ∧
    (∀ n statusCode, n ≤ maxRetries →
      (∀ m, m < n → retriesOn (oracle m) = true) →
      oracle n = .response statusCode → statusCode < 500 →
      (DoWithRetry oracle maxRetries).attempts = n + 1 ∧
      (DoWithRetry oracle maxRetries).result = .success statusCode) := by
  constructor
  · exact runRetries_attempts_le oracle maxRetries 0
  · intro n statusCode hn hpre hc hlt
    have hpre' : ∀ m, m < n → retriesOn (oracle (0 + m)) = true := by
      intro m hm
      rw [Nat.zero_add]
      exact hpre m hm
    have hc' : oracle (0 + n) = .response statusCode := by
      rw [Nat.zero_add]
      exact hc
    have h := runRetries_first_ok oracle n 0 maxRetries statusCode hn hpre' hc' hlt
    exact ⟨h.2, h.1⟩

/-- C1 witness: two server faults followed by a 404 stop the executor at
the third attempt although three more retries were allowed. -/
theorem c1_executor_attempt_bound_witness :
    (DoWithRetry (fun k => if k < 2 then .response 503 else .response 404) 5).attempts = 3 ∧
    (DoWithRetry (fun k => if k < 2 then .response 503 else .response 404) 5).result =
      .success 404 :=
  (c1_executor_attempt_bound (fun k => if k < 2 then .response 503 else .response 404) 5).2
    2 404 (by omega) (by decide) (by decide) (by omega)

/-! ### Claim C2 -/

/-- C2 counterexample: with a budget of 38 retries against a server that
keeps answering 500, the delay recorded before attempt 38 is not
`min(5s, 100ms * 2^37)`: the Go `int64` nanosecond computation
`time.Duration(1<<37) * 100 * time.Millisecond` overflows to a negative
duration, which escapes the `> 5s` cap. -/
theorem c2_backoff_schedule_counterexample :
    (DoWithRetry (fun _ => .response 500) 38).delays[37]? ≠
      some (min (5 * 1000000000) ((100000000 : Int) * 2 ^ 37)) := by decide

/-- C2 (amended): for every attempt `n` that is followed by another
attempt, the backoff delay waited before the next attempt equals
`min(5s, 100ms * 2^n)` (in nanoseconds) exactly when `n ≤ 36` — no
overflow — or `n ∈ {38, 44, 46, 51, 52, 53, 54}`, where the wrapped
`int64` product happens to land above the 5s cap and is capped to the
correct value; for every other `n ≥ 37` the wrapped value escapes the
`> 5s` check and the delay differs from the formula.  Among the
attempts satisfying that condition the delay sequence is monotonically
non-decreasing and capped at 5s. -/
theorem c2_backoff_schedule (oracle : Nat → AttemptOutcome) (maxRetries n : Nat)
    (hn : n < (DoWithRetry oracle maxRetries).delays.length) :
    ((DoWithRetry oracle maxRetries).delays[n]? =
        some (min (5 * 1000000000) ((100000000 : Int) * 2 ^ n)) ↔
      (n ≤ 36 ∨ n ∈ ([38, 44, 46, 51, 52, 53, 54] : List Nat))) ∧
    (∀ m dm dn, m ≤ n →
      (m ≤ 36 ∨ m ∈ ([38, 44, 46, 51, 52, 53, 54] : List Nat)) →
      (n ≤ 36 ∨ n ∈ ([38, 44, 46, 51, 52, 53, 54] : List Nat)) →
      (DoWithRetry oracle maxRetries).delays[m]? = some dm →
      (DoWithRetry oracle maxRetries).delays[n]? = some dn →
      dm ≤ dn ∧ dn ≤ 5 * 1000000000) := by
  have hget : ∀ k, k < (DoWithRetry oracle maxRetries).delays.length →
      (DoWithRetry oracle maxRetries).delays[k]? = some (backoffDelayNs k) := by
    intro k hk
    have := runRetries_delays_get oracle maxRetries 0 k hk
    rwa [Nat.zero_add] at this
  constructor
  · rw [hget n hn]
    constructor
    · intro h
      exact (backoffDelayNs_eq_min_iff n).mp (Option.some_inj.mp h)
    · intro h
      rw [(backoffDelayNs_eq_min_iff n).mpr h]
  · intro m dm dn hmn hgm hgn hm hn'
    rw [hget m (by omega)] at hm
    rw [hget n hn] at hn'
    obtain rfl : dm = backoffDelayNs m := (Option.some_inj.mp hm).symm
    obtain rfl : dn = backoffDelayNs n := (Option.some_inj.mp hn').symm
    rw [(backoffDelayNs_eq_min_iff m).mpr hgm, (backoffDelayNs_eq_min_iff n).mpr hgn]
    constructor
    · have hpow : (2 : Int) ^ m ≤ 2 ^ n := pow_le_pow_right₀ (by norm_num) hmn
      exact min_le_min le_rfl (by nlinarith)
    · exact min_le_left _ _

/-- C2 witness: three consecutive 503 responses under a budget of three
retries wait 100ms before the second attempt and 200ms before the
third. -/
theorem c2_backoff_schedule_witness :
    (DoWithRetry (fun _ => .response 503) 3).delays[1]? =
      some (min (5 * 1000000000) ((100000000 : Int) * 2 ^ 1)) :=
  ((c2_backoff_schedule (fun _ => .response 503) 3 1 (by decide)).1).mpr (Or.inl (by omega))

/-! ### Claim C10 -/

/-- C10: whenever the executor's stopping attempt is a received response
with status below 500 — including 4xx client faults — `DoWithRetry`
returns it with nil error; rejecting a 4xx is left to the caller, e.g.
`SonyProvider.Create`'s own status check, which then fails on every
status of 400 or above. -/
theorem c10_client_fault_nil_error (oracle : Nat → AttemptOutcome)
    (maxRetries n statusCode : Nat) (hn : n ≤ maxRetries)
    (hpre : ∀ m, m < n → retriesOn (oracle m) = true)
    (hc : oracle n = .response statusCode) (hlt : statusCode < 500) :
    (DoWithRetry oracle maxRetries).result = .success statusCode ∧
    (400 ≤ statusCode → ∀ parsed raw, ∃ e,
      SonyProvider.Create (.response statusCode parsed raw) = .error e) := by
  constructor
  · have hpre' : ∀ m, m < n → retriesOn (oracle (0 + m)) = true := by
      intro m hm
      rw [Nat.zero_add]
      exact hpre m hm
    have hc' : oracle (0 + n) = .response statusCode := by
      rw [Nat.zero_add]
      exact hc
    exact (runRetries_first_ok oracle n 0 maxRetries statusCode hn hpre' hc' hlt).1
  · intro h400 parsed raw
    have h1 : (statusCode != 201) = true := by
      simp only [bne_iff_ne, ne_eq]
      omega
    have h2 : (statusCode != 200) = true := by
      simp only [bne_iff_ne, ne_eq]
      omega
    refine ⟨"Sony API returned status " ++ toString statusCode ++ ": " ++ raw, ?_⟩
    simp [SonyProvider.Create, h1, h2]

/-- C10 witness: a 404 on the very first attempt is returned with nil
error, and the Sony create classification then rejects it itself. -/
theorem c10_client_fault_nil_error_witness :
    (DoWithRetry (fun _ => .response 404) 3).result = .success 404 ∧
    (400 ≤ 404 → ∀ parsed raw, ∃ e,
      SonyProvider.Create (.response 404 parsed raw) = .error e) :=
  c10_client_fault_nil_error (fun _ => .response 404) 3 0 404 (by omega)
    (fun m hm => (Nat.not_lt_zero m hm).elim) rfl (by omega)

/-! ### Claim C4 -/

/-- C4: a POST /resources request whose vendor `Create` call fails is not
aborted: the handler still answers 201 and the record is persisted under
the generated id with phase `Failed` and the vendor error text in
`status.message`. -/
theorem c4_create_failure_persisted (providers : List String) (db : Store)
    (resource : ForgeResource) (newID : String) (now : Int) (e : String)
    (hname : resource.name ≠ "") (htype : resource.type ≠ "")
    (hvt : resource.spec.vendorType ≠ "")
    (hp : providers.contains resource.spec.vendorType = true) :
    (HandleCreateResource providers db (some resource) newID now (.error e)).status = 201 ∧
    storeGet (HandleCreateResource providers db (some resource) newID now (.error e)).db newID =
      some { resource with
             id := newID, createdAt := now, updatedAt := now,
             status := { resource.status with
                         phase := "Failed", message := "Vendor API error: " ++ e } } := by
  simp only [HandleCreateResource]
  rw [if_neg (by simpa using hname), if_neg (by simpa using htype),
    if_neg (by simpa using hvt), if_pos hp]
  exact ⟨rfl, storeGet_storePut _ _ _⟩

/-- C4 witness: a concrete failed create is stored as `Failed` and the
request still answers 201. -/
theorem c4_create_failure_persisted_witness :
    (HandleCreateResource ["sony"] []
        (some ⟨"", "cam-1", "camera", "default", ⟨"sony"⟩, ⟨"", "", "", "", 0⟩, 0, 0⟩)
        "res-7" 7 (.error "connection refused")).status = 201 ∧
    storeGet (HandleCreateResource ["sony"] []
        (some ⟨"", "cam-1", "camera", "default", ⟨"sony"⟩, ⟨"", "", "", "", 0⟩, 0, 0⟩)
        "res-7" 7 (.error "connection refused")).db "res-7" =
      some ⟨"res-7", "cam-1", "camera", "default", ⟨"sony"⟩,
            ⟨"Failed", "Vendor API error: connection refused", "", "", 0⟩, 7, 7⟩ :=
  c4_create_failure_persisted ["sony"] []
    ⟨"", "cam-1", "camera", "default", ⟨"sony"⟩, ⟨"", "", "", "", 0⟩, 0, 0⟩
    "res-7" 7 "connection refused" (by decide) (by decide) (by decide) (by decide)

/-! ### Claim C5 -/

/-- C5: when the id is known locally and the vendor delete call fails,
the handler answers 500 and the local record stays in the store — a
subsequent lookup still finds it; moreover, under a set vendor id, a 204
(and hence the local removal that precedes it) happens only when the
vendor call confirmed the deletion. -/
theorem c5_delete_vendor_failure_preserves (providers : List String) (db : Store)
    (resourceID : String) (resource : ForgeResource) (e : String)
    (hid : resourceID ≠ "")
    (hlook : storeGet db resourceID = some resource)
    (hp : providers.contains resource.spec.vendorType = true)
    (hv : resource.status.vendorId ≠ "") :
    (HandleDeleteResource providers db resourceID (.error e)).status = 500 ∧
    (HandleDeleteResource providers db resourceID (.error e)).db = db ∧
    storeGet (HandleDeleteResource providers db resourceID (.error e)).db resourceID =
      some resource ∧
    (∀ vendorResult, (HandleDeleteResource providers db resourceID vendorResult).status = 204 →
      vendorResult = .ok ()) := by
  have hmem : resource.spec.vendorType ∈ providers := by simpa using hp
  have heval : ∀ vendorResult, HandleDeleteResource providers db resourceID vendorResult =
      (match vendorResult with
       | .error _ => (⟨500, db⟩ : DeleteResult)
       | .ok _ => ⟨204, storeDel db resourceID⟩) := by
    intro vendorResult
    simp only [HandleDeleteResource]
    rw [if_neg (by simpa using hid), hlook]
    cases vendorResult <;> simp [hmem, hv]
  refine ⟨?_, ?_, ?_, ?_⟩
  · rw [heval]
  · rw [heval]
  · rw [heval]
    exact hlook
  · intro vendorResult h
    rw [heval] at h
    cases vendorResult with
    | error e' => simp at h
    | ok u => rfl

/-- C5 witness: a concrete delete whose vendor call fails leaves the
record retrievable and answers 500. -/
theorem c5_delete_vendor_failure_preserves_witness :
    (HandleDeleteResource ["sony"]
        [("res-1", ⟨"res-1", "cam-1", "camera", "default", ⟨"sony"⟩,
                    ⟨"Running", "ok", "dev-1", "healthy", 0⟩, 0, 0⟩)]
        "res-1" (.error "Sony API returned status 500: boom")).status = 500 ∧
    (HandleDeleteResource ["sony"]
        [("res-1", ⟨"res-1", "cam-1", "camera", "default", ⟨"sony"⟩,
                    ⟨"Running", "ok", "dev-1", "healthy", 0⟩, 0, 0⟩)]
        "res-1" (.error "Sony API returned status 500: boom")).db =
      [("res-1", ⟨"res-1", "cam-1", "camera", "default", ⟨"sony"⟩,
                  ⟨"Running", "ok", "dev-1", "healthy", 0⟩, 0, 0⟩)] ∧
    storeGet (HandleDeleteResource ["sony"]
        [("res-1", ⟨"res-1", "cam-1", "camera", "default", ⟨"sony"⟩,
                    ⟨"Running", "ok", "dev-1", "healthy", 0⟩, 0, 0⟩)]
        "res-1" (.error "Sony API returned status 500: boom")).db "res-1" =
      some ⟨"res-1", "cam-1", "camera", "default", ⟨"sony"⟩,
            ⟨"Running", "ok", "dev-1", "healthy", 0⟩, 0, 0⟩ ∧
    (∀ vendorResult, (HandleDeleteResource ["sony"]
        [("res-1", ⟨"res-1", "cam-1", "camera", "default", ⟨"sony"⟩,
                    ⟨"Running", "ok", "dev-1", "healthy", 0⟩, 0, 0⟩)]
        "res-1" vendorResult).status = 204 → vendorResult = .ok ()) :=
  c5_delete_vendor_failure_preserves ["sony"]
    [("res-1", ⟨"res-1", "cam-1", "camera", "default", ⟨"sony"⟩,
                ⟨"Running", "ok", "dev-1", "healthy", 0⟩, 0, 0⟩)]
    "res-1"
    ⟨"res-1", "cam-1", "camera", "default", ⟨"sony"⟩,
     ⟨"Running", "ok", "dev-1", "healthy", 0⟩, 0, 0⟩
    "Sony API returned status 500: boom" (by decide) (by decide) (by decide) (by decide)

/-! ### Claim C9 -/

/-- C9: deleting a record whose `status.vendorId` is empty skips the
vendor call entirely — the response does not depend on any vendor
outcome — removes the local record, and answers 204. -/
theorem c9_delete_skips_vendor_without_id (providers : List String) (db : Store)
    (resourceID : String) (resource : ForgeResource)
    (hid : resourceID ≠ "")
    (hlook : storeGet db resourceID = some resource)
    (hp : providers.contains resource.spec.vendorType = true)
    (hv : resource.status.vendorId = "") :
    ∀ vendorResult, HandleDeleteResource providers db resourceID vendorResult =
      ⟨204, storeDel db resourceID⟩ := by
  intro vendorResult
  have hmem : resource.spec.vendorType ∈ providers := by simpa using hp
  simp only [HandleDeleteResource]
  rw [if_neg (by simpa using hid), hlook]
  simp [hmem, hv]

/-- C9 witness: a concrete record that never reached the vendor is
removed locally with a 204 no matter what a vendor call would say. -/
theorem c9_delete_skips_vendor_without_id_witness :
    HandleDeleteResource ["sony"]
        [("res-2", ⟨"res-2", "cam-2", "camera", "default", ⟨"sony"⟩,
                    ⟨"Failed", "Vendor API error: boom", "", "", 0⟩, 0, 0⟩)]
        "res-2" (.error "never called") =
      ⟨204, storeDel
        [("res-2", ⟨"res-2", "cam-2", "camera", "default", ⟨"sony"⟩,
                    ⟨"Failed", "Vendor API error: boom", "", "", 0⟩, 0, 0⟩)] "res-2"⟩ :=
  c9_delete_skips_vendor_without_id ["sony"]
    [("res-2", ⟨"res-2", "cam-2", "camera", "default", ⟨"sony"⟩,
                ⟨"Failed", "Vendor API error: boom", "", "", 0⟩, 0, 0⟩)]
    "res-2"
    ⟨"res-2", "cam-2", "camera", "default", ⟨"sony"⟩,
     ⟨"Failed", "Vendor API error: boom", "", "", 0⟩, 0, 0⟩
    (by decide) (by decide) (by decide) (by decide) (.error "never called")

/-! ### Claim C6 -/

/-- C6: a vendor 404 on `Read` is not an error — the provider resolves it
to an `ok` status with phase `Failed` and a descriptive message — and a
GET whose vendor read hits that 404 overwrites the stored record with the
`Failed` status and still answers 200 with the updated record. -/
theorem c6_read_notfound_resolves_failed (providers : List String) (db : Store)
    (resourceID : String) (resource : ForgeResource)
    (parsed : Option SonyDeviceResponse) (raw : String) (now : Int)
    (hid : resourceID ≠ "")
    (hlook : storeGet db resourceID = some resource)
    (hp : providers.contains resource.spec.vendorType = true)
    (hv : resource.status.vendorId ≠ "") :
    SonyProvider.Read resource.status.vendorId (.response 404 parsed raw) =
      .ok ⟨"Failed", "Device not found in Sony system",
           resource.status.vendorId, "unhealthy", 0⟩ ∧
    (HandleGetResource providers db resourceID
        (SonyProvider.Read resource.status.vendorId (.response 404 parsed raw)) now).status =
      200 ∧
    (HandleGetResource providers db resourceID
        (SonyProvider.Read resource.status.vendorId (.response 404 parsed raw)) now).body =
      some { resource with
             status := ⟨"Failed", "Device not found in Sony system",
                        resource.status.vendorId, "unhealthy", 0⟩,
             updatedAt := now } ∧
    storeGet (HandleGetResource providers db resourceID
        (SonyProvider.Read resource.status.vendorId (.response 404 parsed raw)) now).db
        resourceID =
      some { resource with
             status := ⟨"Failed", "Device not found in Sony system",
                        resource.status.vendorId, "unhealthy", 0⟩,
             updatedAt := now } := by
  have hmem : resource.spec.vendorType ∈ providers := by simpa using hp
  have hread : SonyProvider.Read resource.status.vendorId (.response 404 parsed raw) =
      .ok ⟨"Failed", "Device not found in Sony system",
           resource.status.vendorId, "unhealthy", 0⟩ := by
    simp [SonyProvider.Read]
  have heval : HandleGetResource providers db resourceID
      (SonyProvider.Read resource.status.vendorId (.response 404 parsed raw)) now =
      ⟨200,
       some { resource with
              status := ⟨"Failed", "Device not found in Sony system",
                         resource.status.vendorId, "unhealthy", 0⟩,
              updatedAt := now },
       storePut db resourceID
         { resource with
           status := ⟨"Failed", "Device not found in Sony system",
                      resource.status.vendorId, "unhealthy", 0⟩,
           updatedAt := now }⟩ := by
    rw [hread]
    simp only [HandleGetResource]
    rw [if_neg (by simpa using hid), hlook]
    simp [hmem, hv]
  refine ⟨hread, ?_, ?_, ?_⟩
  · rw [heval]
  · rw [heval]
  · rw [heval]
    exact storeGet_storePut _ _ _

/-- C6 witness: a concrete GET against a vendor that lost the device
answers 200 and caches the `Failed` phase. -/
theorem c6_read_notfound_resolves_failed_witness :
    SonyProvider.Read "dev-1" (.response 404 none "device not found") =
      .ok ⟨"Failed", "Device not found in Sony system", "dev-1", "unhealthy", 0⟩ ∧
    (HandleGetResource ["sony"]
        [("res-1", ⟨"res-1", "cam-1", "camera", "default", ⟨"sony"⟩,
                    ⟨"Running", "ok", "dev-1", "healthy", 0⟩, 0, 0⟩)]
        "res-1" (SonyProvider.Read "dev-1" (.response 404 none "device not found")) 9).status =
      200 ∧
    (HandleGetResource ["sony"]
        [("res-1", ⟨"res-1", "cam-1", "camera", "default", ⟨"sony"⟩,
                    ⟨"Running", "ok", "dev-1", "healthy", 0⟩, 0, 0⟩)]
        "res-1" (SonyProvider.Read "dev-1" (.response 404 none "device not found")) 9).body =
      some ⟨"res-1", "cam-1", "camera", "default", ⟨"sony"⟩,
            ⟨"Failed", "Device not found in Sony system", "dev-1", "unhealthy", 0⟩, 0, 9⟩ ∧
    storeGet (HandleGetResource ["sony"]
        [("res-1", ⟨"res-1", "cam-1", "camera", "default", ⟨"sony"⟩,
                    ⟨"Running", "ok", "dev-1", "healthy", 0⟩, 0, 0⟩)]
        "res-1" (SonyProvider.Read "dev-1" (.response 404 none "device not found")) 9).db
        "res-1" =
      some ⟨"res-1", "cam-1", "camera", "default", ⟨"sony"⟩,
            ⟨"Failed", "Device not found in Sony system", "dev-1", "unhealthy", 0⟩, 0, 9⟩ :=
  c6_read_notfound_resolves_failed ["sony"]
    [("res-1", ⟨"res-1", "cam-1", "camera", "default", ⟨"sony"⟩,
                ⟨"Running", "ok", "dev-1", "healthy", 0⟩, 0, 0⟩)]
    "res-1"
    ⟨"res-1", "cam-1", "camera", "default", ⟨"sony"⟩,
     ⟨"Running", "ok", "dev-1", "healthy", 0⟩, 0, 0⟩
    none "device not found" 9 (by decide) (by decide) (by decide) (by decide)

/-! ### Claim C7 -/

/-- C7: `SonyProvider.Delete` is idempotent — a vendor 404 on delete is
classified exactly like 204 and 200: success with nil error, regardless
of response body. -/
theorem c7_delete_idempotent (parsedA : Option SonyDeviceResponse) (rawA : String)
    (parsedB : Option SonyDeviceResponse) (rawB : String) :
    SonyProvider.Delete (.response 404 parsedA rawA) = .ok () ∧
    SonyProvider.Delete (.response 404 parsedA rawA) =
      SonyProvider.Delete (.response 204 parsedB rawB) ∧
    SonyProvider.Delete (.response 404 parsedA rawA) =
      SonyProvider.Delete (.response 200 parsedB rawB) := by
  refine ⟨rfl, rfl, rfl⟩

/-- C7 witness: the idempotence equalities at a concrete body. -/
theorem c7_delete_idempotent_witness :
    SonyProvider.Delete (.response 404 none "device not found") = .ok () ∧
    SonyProvider.Delete (.response 404 none "device not found") =
      SonyProvider.Delete (.response 204 none "") ∧
    SonyProvider.Delete (.response 404 none "device not found") =
      SonyProvider.Delete (.response 200 none "") :=
  c7_delete_idempotent none "device not found" none ""

/-! ### Claim C8 -/

/-- C8: `Update` on a resource whose `status.vendorId` is empty fails
immediately with the precondition error, whatever the vendor exchange
would have produced — the conclusion holds for every `exec`, so no
vendor call is consulted. -/
theorem c8_update_requires_vendor_id (resource : ForgeResource)
    (hv : resource.status.vendorId = "") :
    ∀ exec, SonyProvider.Update resource exec =
      .error "cannot update resource without vendor ID" := by
  intro exec
  simp [SonyProvider.Update, hv]

/-- C8 witness: a freshly decoded resource (empty vendor id) is rejected
by `Update` even though the vendor would have answered 200. -/
theorem c8_update_requires_vendor_id_witness :
    SonyProvider.Update
        ⟨"res-1", "cam-1", "camera", "default", ⟨"sony"⟩, ⟨"Pending", "", "", "", 0⟩, 0, 0⟩
        (.response 200 (some ⟨"dev-1", "active", "ok"⟩) "") =
      .error "cannot update resource without vendor ID" :=
  c8_update_requires_vendor_id
    ⟨"res-1", "cam-1", "camera", "default", ⟨"sony"⟩, ⟨"Pending", "", "", "", 0⟩, 0, 0⟩
    (by decide) (.response 200 (some ⟨"dev-1", "active", "ok"⟩) "")

/-! ### Claim C3 -/

/-- C3: evaluation of the create path at the failing input.
`generateResourceID` is a pure function of the `time.Now().UnixNano()`
reading, so two create requests that observe the same nanosecond reading
are both accepted with 201 yet observe the same generated id, and the
second create silently overwrites the first record in the store (the
final store holds a single record). -/
theorem c3_same_nanosecond_creates_collide :
    (HandleCreateResource ["sony"] []
        (some ⟨"", "cam-1", "camera", "default", ⟨"sony"⟩, ⟨"", "", "", "", 0⟩, 0, 0⟩)
        (generateResourceID 1706641234000000000) 1706641234000000000
        (.ok ⟨"Running", "Device provisioned successfully", "dev-1", "healthy", 0⟩)).status =
      201 ∧
    (HandleCreateResource ["sony"]
        (HandleCreateResource ["sony"] []
          (some ⟨"", "cam-1", "camera", "default", ⟨"sony"⟩, ⟨"", "", "", "", 0⟩, 0, 0⟩)
          (generateResourceID 1706641234000000000) 1706641234000000000
          (.ok ⟨"Running", "Device provisioned successfully", "dev-1", "healthy", 0⟩)).db
        (some ⟨"", "cam-2", "camera", "default", ⟨"sony"⟩, ⟨"", "", "", "", 0⟩, 0, 0⟩)
        (generateResourceID 1706641234000000000) 1706641234000000000
        (.ok ⟨"Running", "Device provisioned successfully", "dev-2", "healthy", 0⟩)).status =
      201 ∧
    Option.map ForgeResource.id
        (HandleCreateResource ["sony"] []
          (some ⟨"", "cam-1", "camera", "default", ⟨"sony"⟩, ⟨"", "", "", "", 0⟩, 0, 0⟩)
          (generateResourceID 1706641234000000000) 1706641234000000000
          (.ok ⟨"Running", "Device provisioned successfully", "dev-1", "healthy", 0⟩)).body =
      Option.map ForgeResource.id
        (HandleCreateResource ["sony"]
          (HandleCreateResource ["sony"] []
            (some ⟨"", "cam-1", "camera", "default", ⟨"sony"⟩, ⟨"", "", "", "", 0⟩, 0, 0⟩)
            (generateResourceID 1706641234000000000) 1706641234000000000
            (.ok ⟨"Running", "Device provisioned successfully", "dev-1", "healthy", 0⟩)).db
          (some ⟨"", "cam-2", "camera", "default", ⟨"sony"⟩, ⟨"", "", "", "", 0⟩, 0, 0⟩)
          (generateResourceID 1706641234000000000) 1706641234000000000
          (.ok ⟨"Running", "Device provisioned successfully", "dev-2", "healthy", 0⟩)).body ∧
    (HandleCreateResource ["sony"]
        (HandleCreateResource ["sony"] []
          (some ⟨"", "cam-1", "camera", "default", ⟨"sony"⟩, ⟨"", "", "", "", 0⟩, 0, 0⟩)
          (generateResourceID 1706641234000000000) 1706641234000000000
          (.ok ⟨"Running", "Device provisioned successfully", "dev-1", "healthy", 0⟩)).db
        (some ⟨"", "cam-2", "camera", "default", ⟨"sony"⟩, ⟨"", "", "", "", 0⟩, 0, 0⟩)
        (generateResourceID 1706641234000000000) 1706641234000000000
        (.ok ⟨"Running", "Device provisioned successfully", "dev-2", "healthy", 0⟩)).db.length =
      1 := by
  refine ⟨rfl, rfl, rfl, rfl⟩

end MCP
